import Mathlib

/-!
Shallow embedding of the normalization + deduplication pipeline of
`scripts/fetch_plans.py` (repository `luisfork/light`).

Conventions of the embedding:
- Python machine floats are modelled as exact rationals (`ℚ`); `round` on a
  float is modelled as round-half-to-even on the rational value.
- Fallible Python code is modelled with `Option` (a caught failure yields
  `none`) and `Except PyErr` (an exception escaping the function).
- Python strings are Lean `String`s; `str.upper`/`str.lower` are modelled for
  ASCII plus the accented Spanish letters this pipeline concerns.
-/

/-- Exceptions that can escape the parse functions. -/
inductive PyErr where
  | valueError
  | typeError
  | attributeError
deriving DecidableEq, Repr

/-- Python `str.lower` per character: ASCII plus the accented Spanish letters
(`Ñ Á É Í Ó Ú`) that the preference scorer inspects. -/
def pyLowerChar (c : Char) : Char :=
  if c = 'Ñ' then 'ñ'
  else if c = 'Á' then 'á'
  else if c = 'É' then 'é'
  else if c = 'Í' then 'í'
  else if c = 'Ó' then 'ó'
  else if c = 'Ú' then 'ú'
  else c.toLower

/-- Python `str.upper` per character: ASCII plus the accented Spanish letters. -/
def pyUpperChar (c : Char) : Char :=
  if c = 'ñ' then 'Ñ'
  else if c = 'á' then 'Á'
  else if c = 'é' then 'É'
  else if c = 'í' then 'Í'
  else if c = 'ó' then 'Ó'
  else if c = 'ú' then 'Ú'
  else c.toUpper

/-- Python `str.lower`. -/
def pyLower (s : String) : String := String.mk (s.data.map pyLowerChar)

/-- Python `str.upper`. -/
def pyUpper (s : String) : String := String.mk (s.data.map pyUpperChar)

/-- Python `str.isalnum` per character, modelled for ASCII plus the accented
Spanish letters (which are alphanumeric in Unicode, hence in Python). -/
def pyIsAlnum (c : Char) : Bool :=
  c.isAlphanum || c ∈ ['ñ', 'Ñ', 'á', 'é', 'í', 'ó', 'ú', 'Á', 'É', 'Í', 'Ó', 'Ú']

/-- Python substring test `needle in hay`. -/
def strContains (hay needle : String) : Bool :=
  hay.data.tails.any (fun t => needle.data.isPrefixOf t)

/-- Python `x or d` on strings: the empty string is falsy. -/
def orDefault (s d : String) : String := if s = "" then d else s

/-- Python `str.strip` with no argument: drop whitespace from both ends.
(Core `String.trim` is byte-based and does not reduce in the kernel, so the
embedding works on the character list.) -/
def pyStrip (s : String) : String :=
  String.mk (((s.data.dropWhile Char.isWhitespace).reverse.dropWhile Char.isWhitespace).reverse)

/-- Python `str.startswith`. -/
def strStartsWith (s pre : String) : Bool := pre.data.isPrefixOf s.data

/-- Split a string at every occurrence of one character, as
`str.split(sep)` does for a one-character separator. -/
def splitOnChar (c : Char) (s : String) : List String :=
  (go s.data []).map String.mk where
  go : List Char → List Char → List (List Char)
  | [], acc => [acc.reverse]
  | x :: xs, acc => if x = c then acc.reverse :: go xs [] else go xs (x :: acc)

/-- Numeric value of a run of decimal digits. -/
def digitsVal (cs : List Char) : ℕ := cs.foldl (fun a c => a * 10 + (c.toNat - 48)) 0

/-- The syntactic stage of Python `float(s)` on plain decimal literals:
optional surrounding whitespace, optional sign, digits with at most one
decimal point, at least one digit. Returns the sign, the integer-part value,
the fraction-part value and the fraction length; `none` models a
`ValueError`. Exponent, `inf`/`nan` and underscore forms of the literal
grammar are not modelled (the pipeline never receives them). -/
def pyFloatParse (s : String) : Option (Bool × ℕ × ℕ × ℕ) :=
  let cs := (pyStrip s).data
  let sgnRest : Bool × List Char :=
    match cs with
    | '-' :: r => (true, r)
    | '+' :: r => (false, r)
    | r => (false, r)
  let intPart := sgnRest.2.takeWhile Char.isDigit
  let rest := sgnRest.2.dropWhile Char.isDigit
  match rest with
  | [] => if intPart.isEmpty then none else some (sgnRest.1, digitsVal intPart, 0, 0)
  | '.' :: fr =>
    let fracPart := fr.takeWhile Char.isDigit
    let rest2 := fr.dropWhile Char.isDigit
    if rest2.isEmpty && !(intPart.isEmpty && fracPart.isEmpty) then
      some (sgnRest.1, digitsVal intPart, digitsVal fracPart, fracPart.length)
    else none
  | _ => none

/-- The rational value of a parsed decimal literal. -/
def decimalVal (t : Bool × ℕ × ℕ × ℕ) : ℚ :=
  (cond t.1 (-1) 1) * ((t.2.1 : ℚ) + (t.2.2.1 : ℚ) / (10 : ℚ) ^ t.2.2.2)

/-- Python `float(s)`: the value of the parsed literal. -/
def pyFloat (s : String) : Option ℚ := (pyFloatParse s).map decimalVal

/-- Floor of a rational as an integer. -/
def ratFloorZ (q : ℚ) : ℤ := Int.fdiv q.num q.den

/-- Python `int(float)`: truncation toward zero. -/
def pyTrunc (q : ℚ) : ℤ := if q < 0 then -ratFloorZ (-q) else ratFloorZ q

/-- Python `round` on a float value: round half to even. -/
def pyRound (q : ℚ) : ℤ :=
  let f := ratFloorZ q
  let r := q - (f : ℚ)
  if r < 1 / 2 then f
  else if 1 / 2 < r then f + 1
  else if f % 2 = 0 then f else f + 1

/-- The cleaning step of `parse_price`: strip whitespace, then remove every
`$`, `,` and `%`. -/
def stripPriceChars (s : String) : String :=
  String.mk ((pyStrip s).data.filter (fun c => !(c = '$' || c = ',' || c = '%')))

/-- Embeds `parse_price` (fetch_plans.py:451-470) on string input: clean the
string, parse as float, and multiply by 100 when the value is below 1
(dollars-to-cents inference); empty or non-numeric input gives `none`. -/
def parse_price (value : String) : Option ℚ :=
  let cleaned := stripPriceChars value
  if cleaned = "" then none
  else
    match pyFloat cleaned with
    | none => none
    | some num => if num < 1 then some (num * 100) else some num

/-- The cleaning step of `parse_float`: strip whitespace, then remove every
`$`, `¢`, `,` and `%`. -/
def stripFloatChars (s : String) : String :=
  String.mk ((pyStrip s).data.filter (fun c => !(c = '$' || c = '¢' || c = ',' || c = '%')))

/-- Embeds `parse_float` (fetch_plans.py:559-571) on string input: like
`parse_price`'s cleaning but also stripping `¢`, and with no unit inference. -/
def parse_float_str (s : String) : Option ℚ :=
  let cleaned := stripFloatChars s
  if cleaned = "" then none else pyFloat cleaned

/-- The comma-stripping step of `parse_int`. -/
def stripCommas (s : String) : String :=
  String.mk ((pyStrip s).data.filter (fun c => c ≠ ','))

/-- The first whitespace-separated token of a string: the `[0]` element of
Python `str.split()`, empty when there is none. -/
def firstTokenPy (s : String) : List Char :=
  (s.data.dropWhile Char.isWhitespace).takeWhile (fun c => !c.isWhitespace)

/-- Embeds `parse_int` (fetch_plans.py:574-588) on string input: strip `,`,
take the first whitespace-separated token, parse as float and truncate.
Corner not modelled: a cleaned string that is non-empty but all whitespace
(e.g. `", "`) makes the Python code raise an uncaught `IndexError`; this
embedding returns `none` there. -/
def parse_int_str (s : String) : Option ℤ :=
  let cleaned := stripCommas s
  if cleaned = "" then none
  else
    let tok := firstTokenPy cleaned
    if tok.isEmpty then none else (pyFloat (String.mk tok)).map pyTrunc

/-- Embeds `sanitize_string` (fetch_plans.py:539-543) on string input. -/
def sanitize_string (s : String) : String := pyStrip s

/-- Embeds `sanitize_url` (fetch_plans.py:546-556) on string input. -/
def sanitize_url (s : String) : String :=
  let url := pyStrip s
  if url ≠ "" ∧ ¬(strStartsWith url "http://" ∨ strStartsWith url "https://") then
    if strStartsWith url "//" then "https:" ++ url
    else if strStartsWith url "/" then "https://www.powertochoose.org" ++ url
    else url
  else url

/-- The `tdu_mapping` table of `normalize_tdu_name`, in source order. -/
def tdu_mapping : List (String × String) :=
  [("CENTERPOINT", "CENTERPOINT"),
   ("CENTERPOINT ENERGY", "CENTERPOINT"),
   ("CENTERPOINT ENERGY HOUSTON", "CENTERPOINT"),
   ("CENTERPOINT ENERGY HOUSTON ELECTRIC", "CENTERPOINT"),
   ("CENTERPOINT ENERGY HOUSTON ELECTRIC LLC", "CENTERPOINT"),
   ("ONCOR", "ONCOR"),
   ("ONCOR ELECTRIC", "ONCOR"),
   ("ONCOR ELECTRIC DELIVERY", "ONCOR"),
   ("ONCOR ELECTRIC DELIVERY COMPANY", "ONCOR"),
   ("AEP TEXAS CENTRAL", "AEP_CENTRAL"),
   ("AEP TEXAS CENTRAL COMPANY", "AEP_CENTRAL"),
   ("AEP CENTRAL", "AEP_CENTRAL"),
   ("AEP TEXAS NORTH", "AEP_NORTH"),
   ("AEP TEXAS NORTH COMPANY", "AEP_NORTH"),
   ("AEP NORTH", "AEP_NORTH"),
   ("TEXAS-NEW MEXICO POWER", "TNMP"),
   ("TEXAS-NEW MEXICO POWER COMPANY", "TNMP"),
   ("TNMP", "TNMP"),
   ("LUBBOCK POWER", "LPL"),
   ("LUBBOCK POWER & LIGHT", "LPL"),
   ("LPL", "LPL")]

/-- Embeds `normalize_tdu_name` (fetch_plans.py:407-448): absent input gives
`UNKNOWN`; otherwise upper-case and trim, try an exact table match, then a
substring match in either direction in table order, else pass the upper-cased
string through unchanged. -/
def normalize_tdu_name (tdu_raw : String) : String :=
  if tdu_raw = "" then "UNKNOWN"
  else
    let tdu_upper := pyStrip (pyUpper tdu_raw)
    match tdu_mapping.find? (fun kv => kv.1 == tdu_upper) with
    | some kv => kv.2
    | none =>
      match tdu_mapping.find? (fun kv =>
          strContains tdu_upper kv.1 || strContains kv.1 tdu_upper) with
      | some kv => kv.2
      | none => tdu_upper

/-- The canonical plan record built by the parsers (the Python `plan` dict).
`fees_credits` and `min_usage_fees` are set only by the CSV path; the JSON
path leaves them at the empty default (the Python dict simply lacks the keys,
and every reader uses `.get`). -/
structure Plan where
  plan_id : String
  rep_name : String
  plan_name : String
  tdu_area : String
  price_kwh_500 : Option ℚ
  price_kwh_1000 : Option ℚ
  price_kwh_2000 : Option ℚ
  term_months : Option ℤ
  rate_type : String
  renewable_pct : Option ℤ
  is_prepaid : Bool
  is_tou : Bool
  early_termination_fee : Option ℚ
  base_charge_monthly : Option ℚ
  efl_url : String
  enrollment_url : String
  terms_url : String
  special_terms : String
  promotion_details : String
  fees_credits : String := ""
  min_usage_fees : String := ""
  language : String
deriving DecidableEq, Repr

/-- The `normalize_price` helper of `create_plan_fingerprint`: absent prices
become `0.0`, present ones are rounded to 3 decimal places. -/
def normalize_price (price : Option ℚ) : ℚ :=
  match price with
  | none => 0
  | some q => (pyRound (q * 1000) : ℚ) / 1000

/-- The `normalize_fee` helper of `create_plan_fingerprint`: absent fees
become `0.0`, present ones are rounded to 2 decimal places. -/
def normalize_fee (fee : Option ℚ) : ℚ :=
  match fee with
  | none => 0
  | some q => (pyRound (q * 100) : ℚ) / 100

/-- The key→value structure serialized by `create_plan_fingerprint`
(fetch_plans.py:614-627). `json.dumps` with `sort_keys=True` over this fixed
key set is injective, so fingerprint strings are equal exactly when these
records are equal; the embedding therefore keeps the record itself. -/
structure FingerprintData where
  rep : String
  tdu : String
  rate_type : String
  p500 : ℚ
  p1000 : ℚ
  p2000 : ℚ
  term : ℤ
  etf : ℚ
  base : ℚ
  renewable : ℤ
  prepaid : Bool
  tou : Bool
deriving DecidableEq, Repr

/-- Embeds `create_plan_fingerprint` (fetch_plans.py:591-629). -/
def create_plan_fingerprint (plan : Plan) : FingerprintData where
  rep := pyStrip (pyUpper plan.rep_name)
  tdu := pyStrip (pyUpper plan.tdu_area)
  rate_type := pyStrip (pyUpper (orDefault plan.rate_type "FIXED"))
  p500 := normalize_price plan.price_kwh_500
  p1000 := normalize_price plan.price_kwh_1000
  p2000 := normalize_price plan.price_kwh_2000
  term := plan.term_months.getD 0
  etf := normalize_fee plan.early_termination_fee
  base := normalize_fee plan.base_charge_monthly
  renewable := plan.renewable_pct.getD 0
  prepaid := plan.is_prepaid
  tou := plan.is_tou

/-- The language adjustment of `calculate_plan_preference`: `+50` for
`english`, `-50` for `spanish` or `español`, on the lower-cased language. -/
def languageAdj (language : String) : ℤ :=
  if language = "english" then 50
  else if language = "spanish" ∨ language = "español" then -50
  else 0

/-- The Spanish-character penalties of `calculate_plan_preference`, applied to
the lower-cased combined text of `plan_name` and `special_terms`. -/
def spanishCharPenalty (text : List Char) : ℤ :=
  (if 'ñ' ∈ text then 20 else 0)
  + (if 'á' ∈ text then 10 else 0)
  + (if 'é' ∈ text then 10 else 0)
  + (if 'í' ∈ text then 10 else 0)
  + (if 'ó' ∈ text then 10 else 0)
  + (if 'ú' ∈ text then 10 else 0)
  + (if text.tails.any (fun t => ['c', 'i', 'ó', 'n'].isPrefixOf t) then 15 else 0)

/-- The name-length penalty of `calculate_plan_preference`. -/
def nameLengthPenalty (n : ℕ) : ℤ :=
  if n > 50 then 15 else if n > 30 then 10 else if n > 20 then 5 else 0

/-- The special-character count of `calculate_plan_preference`: characters of
`plan_name` that are neither alphanumeric, space, nor hyphen. -/
def specialCharCount (name : List Char) : ℕ :=
  name.countP (fun c => !pyIsAlnum c && !(c = ' ') && !(c = '-'))

/-- Embeds `calculate_plan_preference` (fetch_plans.py:632-668): start at 100,
add the language adjustment, subtract the Spanish-character penalties on the
combined lower-cased text, the name-length penalty, and 2 per special
character of the plan name. -/
def calculate_plan_preference (plan : Plan) : ℤ :=
  let text := (pyLower (plan.plan_name ++ " " ++ plan.special_terms)).data
  100 + languageAdj (pyLower plan.language)
    - spanishCharPenalty text
    - nameLengthPenalty plan.plan_name.data.length
    - 2 * (specialCharCount plan.plan_name.data : ℤ)

/-- One step of `deduplicate_plans` over the insertion-ordered
fingerprint→plan map (a Python dict preserves insertion order, and assigning
to an existing key keeps its position): a fresh fingerprint is appended; on a
collision the stored plan is replaced only when the incoming plan's
preference score is strictly greater. -/
def dedupStep (m : List (FingerprintData × Plan)) (plan : Plan) :
    List (FingerprintData × Plan) :=
  let fp := create_plan_fingerprint plan
  if (m.find? (fun kv => kv.1 = fp)).isSome then
    m.map (fun kv =>
      if kv.1 = fp then
        (kv.1,
          if calculate_plan_preference plan > calculate_plan_preference kv.2 then plan
          else kv.2)
      else kv)
  else m ++ [(fp, plan)]

/-- Embeds `deduplicate_plans` (fetch_plans.py:671-695): fold the plans left
to right into the fingerprint map, then return the stored plans in map
order. -/
def deduplicate_plans (plans : List Plan) : List Plan :=
  (plans.foldl dedupStep []).map Prod.snd

/-- A raw CSV row as `csv.DictReader` hands it to the parser: column name to
cell value, in column order. A key that is absent models both a missing
column and a `None` cell (both are falsy to `get_val`). -/
def RawRow : Type := List (String × String)

/-- Lookup of a column value in a raw row. -/
def rowGet (row : RawRow) (k : String) : Option String :=
  (List.find? (fun kv => kv.1 == k) row).map Prod.snd

/-- Embeds the `get_val` helper of `parse_csv_to_plans`
(fetch_plans.py:225-235): try each key, then the key wrapped in brackets,
returning the first truthy (non-empty) value, else the empty string. -/
def get_val (row : RawRow) : List String → String
  | [] => ""
  | k :: rest =>
    let v := (rowGet row k).getD ""
    if v ≠ "" then v
    else
      let vb := (rowGet row ("[" ++ k ++ "]")).getD ""
      if vb ≠ "" then vb else get_val row rest

/-- The tail of the cancellation-fee regex `Cancellation Fee:\s*\$?([\d\.]+)`
applied right after the literal: skip whitespace, an optional dollar sign,
then capture a non-empty run of digits and dots. -/
def matchFeeAt (cs : List Char) : Option String :=
  let afterWs := cs.dropWhile Char.isWhitespace
  let afterDollar := match afterWs with
    | '$' :: r => r
    | r => r
  let ds := afterDollar.takeWhile (fun c => c.isDigit || c = '.')
  if ds.isEmpty then none else some (String.mk ds)

/-- Leftmost search for the cancellation-fee pattern: try a full match at
each position, as `re.search` does for this literal-anchored pattern. -/
def reSearchFee : List Char → Option String
  | [] => none
  | c :: rest =>
    match (if List.isPrefixOf "Cancellation Fee:".data (c :: rest) then
        matchFeeAt ((c :: rest).drop "Cancellation Fee:".data.length)
      else none) with
    | some m => some m
    | none => reSearchFee rest

/-- The cancellation-fee extraction from the `Pricing Details` column
(fetch_plans.py:276-281). -/
def extractCancelFee (s : String) : Option String := reSearchFee s.data

/-- Backfill of a missing price tier (fetch_plans.py:388-391 and 527-530):
`if not plan[tier]` replaces both an absent and a zero tier by the mid
tier. -/
def backfill (tier : Option ℚ) (mid : ℚ) : Option ℚ :=
  match tier with
  | none => some mid
  | some w => if w = 0 then some mid else some w

/-- The per-field column-alias lists of `parse_csv_to_plans`, exactly as
passed to `get_val` in the source. -/
def keysTdu : List String := ["TduCompanyName", "TduCompany", "TDU", "TDU Area", "tdu_area"]

def keysKwh500 : List String :=
  ["kwh500", "Price/kWh 500", "Price/kWh: 500 kWh", "Price500", "price_kwh_500"]

def keysKwh1000 : List String :=
  ["kwh1000", "Price/kWh 1000", "Price/kWh: 1000 kWh", "Price1000", "price_kwh_1000"]

def keysKwh2000 : List String :=
  ["kwh2000", "Price/kWh 2000", "Price/kWh: 2000 kWh", "Price2000", "price_kwh_2000"]

def keysCancelFee : List String := ["CancelFee", "Cancellation Fee", "ETF", "early_termination_fee"]

def keysPricingDetails : List String := ["Pricing Details"]

def keysLanguage : List String := ["Language", "Lang"]

def keysPlanId : List String := ["idKey", "ID Plan", "Plan ID", "plan_id"]

def keysRepName : List String := ["RepCompany", "REP Name", "rep_name"]

def keysPlanName : List String := ["Product", "Plan Name", "plan_name"]

def keysTerm : List String := ["TermValue", "Term Value", "Term", "term_months"]

def keysRateType : List String := ["RateType", "Rate Type", "rate_type"]

def keysRenewable : List String := ["Renewable", "Renewable Perc", "Renewable Content", "renewable_pct"]

def keysPrepaid : List String := ["PrePaid", "Prepaid", "is_prepaid"]

def keysTou : List String := ["TimeOfUse", "Time Of Use", "Time of Use", "is_tou"]

def keysBaseCharge : List String := ["base_charge_monthly"]

def keysEfl : List String :=
  ["FactsURL", "Fact Sheet", "Electricity Facts Label (EFL) URL", "EFL URL", "efl_url"]

def keysEnroll : List String :=
  ["EnrollURL", "Ordering Info", "Enroll URL", "Enrollment URL", "enrollment_url"]

def keysTos : List String :=
  ["TermsURL", "Terms of Service", "Terms of Service (TOS) URL", "TOS URL", "terms_url"]

def keysSpecialTerms : List String :=
  ["SpecialTerms", "Plan Details", "Special terms and conditions", "Special Terms", "special_terms"]

def keysPromotion : List String := ["PromotionDesc", "Promotion", "Promotion details", "Promotions"]

def keysFeesCredits : List String := ["Fees/Credits", "MinUsageFeesCredits", "Min Usage Fees/Credits"]

def keysMinUsage : List String := ["MinUsageFeesCredits", "Min Usage Fees/Credits", "Min Usage Fees"]

/-- Embeds the per-row body of `parse_csv_to_plans` (fetch_plans.py:237-393):
resolve every field through `get_val`, coerce, validate (positive mid-tier
price, non-empty provider and plan name), backfill the outer price tiers, and
emit the record; a failed validation emits nothing. -/
def parse_csv_row (row : RawRow) : Option Plan :=
  let tdu_area := normalize_tdu_name
    (get_val row keysTdu)
  let price_500 := parse_price
    (get_val row keysKwh500)
  let price_1000 := parse_price
    (get_val row keysKwh1000)
  let price_2000 := parse_price
    (get_val row keysKwh2000)
  let cancel_fee_raw0 := get_val row keysCancelFee
  let cancel_fee_raw :=
    if cancel_fee_raw0 = "" then (extractCancelFee (get_val row keysPricingDetails)).getD ""
    else cancel_fee_raw0
  let lang_raw := orDefault (get_val row keysLanguage) "English"
  let plan : Plan := {
    plan_id := sanitize_string (get_val row keysPlanId)
    rep_name := sanitize_string (get_val row keysRepName)
    plan_name := sanitize_string (get_val row keysPlanName)
    tdu_area := tdu_area
    price_kwh_500 := price_500
    price_kwh_1000 := price_1000
    price_kwh_2000 := price_2000
    term_months := parse_int_str (get_val row keysTerm)
    rate_type := pyUpper (sanitize_string
      (orDefault (get_val row keysRateType) "FIXED"))
    renewable_pct := parse_int_str
      (orDefault (get_val row keysRenewable) "0")
    is_prepaid := pyUpper (get_val row keysPrepaid) ∈ ["TRUE", "YES", "1"]
    is_tou := pyUpper (get_val row keysTou) ∈ ["TRUE", "YES", "1"]
    early_termination_fee := parse_float_str (orDefault cancel_fee_raw "0")
    base_charge_monthly := parse_float_str (orDefault (get_val row keysBaseCharge) "0")
    efl_url := sanitize_url (get_val row keysEfl)
    enrollment_url := sanitize_url (get_val row keysEnroll)
    terms_url := sanitize_url (get_val row keysTos)
    special_terms := sanitize_string (get_val row keysSpecialTerms)
    promotion_details := sanitize_string (get_val row keysPromotion)
    fees_credits := sanitize_string (get_val row keysFeesCredits)
    min_usage_fees := sanitize_string (get_val row keysMinUsage)
    language := sanitize_string lang_raw
  }
  match plan.price_kwh_1000 with
  | none => none
  | some v =>
    if v ≤ 0 then none
    else if plan.rep_name = "" ∨ plan.plan_name = "" then none
    else some { plan with
      price_kwh_500 := backfill plan.price_kwh_500 v
      price_kwh_2000 := backfill plan.price_kwh_2000 v }

/-- Strip every leading byte-order mark, as `lstrip("﻿")` does. -/
def dropBOM (s : String) : String := String.mk (s.data.dropWhile (fun c => c = '﻿'))

/-- Normalize line endings as fetch_plans.py:200 does: `\r\n` becomes `\n`,
then every remaining `\r` becomes `\n`. -/
def normalizeNewlines (s : String) : String := String.mk (normNl s.data) where
  normNl : List Char → List Char
  | [] => []
  | '\r' :: '\n' :: rest => '\n' :: normNl rest
  | '\r' :: rest => '\n' :: normNl rest
  | c :: rest => c :: normNl rest

/-- Python `str.splitlines` restricted to `\n` (the input has just been
normalized): no trailing empty line. -/
def splitlinesPy (s : String) : List String :=
  let parts := splitOnChar '\n' s
  match parts.reverse with
  | "" :: rest => rest.reverse
  | _ => parts

/-- Embeds the document level of `parse_csv_to_plans` (fetch_plans.py:195-404).
The `csv` module is modelled for unquoted cells: the header and each row split
on commas, blank lines skipped. When the document has no (non-degenerate)
header line, the code raises `ValueError("No columns found in CSV")` inside a
`try` block whose only handler catches `csv.Error`; the exception therefore
escapes the function, modelled as `Except.error .valueError`. Row-level
processing in this embedding is total, matching the source, whose row loop
only defends against exceptions that string-valued rows cannot raise. -/
def parse_csv_to_plans (csv_text : String) : Except PyErr (List Plan) :=
  let t := normalizeNewlines (dropBOM csv_text)
  match splitlinesPy t with
  | [] => Except.error PyErr.valueError
  | h :: rest =>
    if h = "" then Except.error PyErr.valueError
    else
      let header := splitOnChar ',' h
      let rows : List RawRow :=
        (rest.filter (fun line => line ≠ "")).map (fun line => header.zip (splitOnChar ',' line))
      Except.ok (rows.filterMap parse_csv_row)

/-- A parsed JSON value, as `json.loads` hands it to `parse_json_to_plans`. -/
inductive Json where
  | str (s : String)
  | num (q : ℚ)
  | bool (b : Bool)
  | null
  | arr (xs : List Json)
  | obj (kvs : List (String × Json))

/-- Python `dict.get(k, d)` on a JSON object: the stored value when the key
is present (even when it is `null`), else the default. -/
def jGetD (kvs : List (String × Json)) (k : String) (d : Json) : Json :=
  match List.find? (fun kv => kv.1 == k) kvs with
  | some kv => kv.2
  | none => d

/-- Python `str()` of a JSON value, to the precision the pipeline needs: it
is applied only to `plan_id` material and to fields no downstream logic
inspects, so container and non-integer renderings are abbreviated. -/
def jStr : Json → String
  | .str s => s
  | .num q => if q.den = 1 then toString q.num else toString q.num ++ "/" ++ toString q.den
  | .bool b => if b then "True" else "False"
  | .null => "None"
  | .arr _ => "[...]"
  | .obj _ => "{...}"

/-- Python truthiness of a JSON value. -/
def jTruthy : Json → Bool
  | .str s => s ≠ ""
  | .num q => q ≠ 0
  | .bool b => b
  | .null => false
  | .arr xs => !xs.isEmpty
  | .obj kvs => !kvs.isEmpty

/-- Embeds `parse_float` on a JSON value. `Except.error ()` models the
`TypeError` that `float()` raises on a container — `parse_float` does not
catch it, the per-item handler in `parse_json_to_plans` does. -/
def jParseFloat : Json → Except Unit (Option ℚ)
  | .null => Except.ok none
  | .num q => Except.ok (some q)
  | .bool b => Except.ok (some (if b then 1 else 0))
  | .str s => Except.ok (parse_float_str s)
  | .arr _ => Except.error ()
  | .obj _ => Except.error ()

/-- Embeds `parse_int` on a JSON value: integers and floats truncate,
booleans count as integers, strings go through the string path, and
containers stringify to something unparsable, giving `none`. -/
def jParseInt : Json → Option ℤ
  | .null => none
  | .num q => some (pyTrunc q)
  | .bool b => some (if b then 1 else 0)
  | .str s => parse_int_str s
  | .arr _ => none
  | .obj _ => none

/-- Embeds `sanitize_string` on a JSON value: `None` gives the empty string,
anything else stringifies and trims. -/
def jSanitize (v : Json) : String :=
  match v with
  | .null => ""
  | w => pyStrip (jStr w)

/-- Embeds `sanitize_url` on a JSON value. -/
def jSanitizeUrl (v : Json) : String :=
  match v with
  | .null => ""
  | w => sanitize_url (jStr w)

/-- Embeds the per-item body of `parse_json_to_plans`
(fetch_plans.py:492-534). `Except.error` is an exception the per-item handler
does not catch (`AttributeError` from `.get` on a non-dict item or from
`.upper()` on a non-string rate type); `Except.ok none` is an item dropped
without a record: a rate type not containing `FIXED`, a caught `TypeError`
from a container price field, or a failing price gate. -/
def parse_json_item (item : Json) : Except PyErr (Option Plan) :=
  match item with
  | .obj kvs =>
    match jGetD kvs "rateType" (jGetD kvs "rate_type" (.str "")) with
    | .str rt0 =>
      if ¬ strContains (pyUpper rt0) "FIXED" then Except.ok none
      else
        match jParseFloat (jGetD kvs "price500" (jGetD kvs "priceKwh500" (.str ""))),
            jParseFloat (jGetD kvs "price1000" (jGetD kvs "priceKwh1000" (.str ""))),
            jParseFloat (jGetD kvs "price2000" (jGetD kvs "priceKwh2000" (.str ""))),
            jParseFloat (jGetD kvs "etf" (jGetD kvs "cancellationFee" (.str "0"))),
            jParseFloat (jGetD kvs "baseCharge" (jGetD kvs "monthlyCharge" (.str "0"))) with
        | .ok p500, .ok p1000, .ok p2000, .ok etf, .ok base =>
          let plan : Plan := {
            plan_id := jStr (jGetD kvs "planId" (jGetD kvs "id" (.str "")))
            rep_name := jSanitize (jGetD kvs "repName" (jGetD kvs "provider" (.str "")))
            plan_name := jSanitize (jGetD kvs "planName" (jGetD kvs "name" (.str "")))
            tdu_area := pyUpper (jSanitize (jGetD kvs "tdu" (.str "")))
            price_kwh_500 := p500
            price_kwh_1000 := p1000
            price_kwh_2000 := p2000
            term_months := jParseInt (jGetD kvs "termMonths" (jGetD kvs "term" (.str "")))
            rate_type := "FIXED"
            renewable_pct := jParseInt (jGetD kvs "renewablePct" (jGetD kvs "renewable" (.str "0")))
            is_prepaid := jTruthy (jGetD kvs "isPrepaid" (jGetD kvs "prepaid" (.bool false)))
            is_tou := jTruthy (jGetD kvs "isTou" (jGetD kvs "timeOfUse" (.bool false)))
            early_termination_fee := etf
            base_charge_monthly := base
            efl_url := jSanitizeUrl (jGetD kvs "eflUrl" (jGetD kvs "factLabel" (.str "")))
            enrollment_url := jSanitizeUrl (jGetD kvs "enrollUrl" (jGetD kvs "enroll" (.str "")))
            terms_url := jSanitizeUrl (jGetD kvs "tosUrl" (jGetD kvs "terms" (.str "")))
            special_terms := jSanitize (jGetD kvs "specialTerms" (.str ""))
            promotion_details := jSanitize (jGetD kvs "promotions" (.str ""))
            language := jSanitize (jGetD kvs "language" (.str "English"))
          }
          match plan.price_kwh_1000 with
          | some v =>
            if v > 0 then
              Except.ok (some { plan with
                price_kwh_500 := backfill plan.price_kwh_500 v
                price_kwh_2000 := backfill plan.price_kwh_2000 v })
            else Except.ok none
          | none => Except.ok none
        | _, _, _, _, _ => Except.ok none
    | _ => Except.error PyErr.attributeError
  | _ => Except.error PyErr.attributeError

/-- The item loop of `parse_json_to_plans`: an uncaught exception from any
item aborts the whole call; otherwise emitted records are collected in
order. -/
def runJsonItems : List Json → Except PyErr (List Plan)
  | [] => Except.ok []
  | item :: rest =>
    match parse_json_item item with
    | Except.error e => Except.error e
    | Except.ok none => runJsonItems rest
    | Except.ok (some p) =>
      match runJsonItems rest with
      | Except.error e => Except.error e
      | Except.ok ps => Except.ok (p :: ps)

/-- Embeds `parse_json_to_plans` (fetch_plans.py:473-536) from the point after
`json.loads`: `none` models undecodable JSON text (`JSONDecodeError`, caught:
empty result). A top-level array is iterated; a top-level object is probed for
`plans`, then `data`, then `results` (defaulting to an empty array); any other
top level gives the empty result. A non-array under the probed key follows the
Python semantics of `for item in ...`: strings and objects iterate (their
elements are not dicts, so `.get` raises `AttributeError` unless they are
empty), and numbers, booleans and `null` raise `TypeError`. -/
def parse_json_to_plans (doc : Option Json) : Except PyErr (List Plan) :=
  match doc with
  | none => Except.ok []
  | some (.arr xs) => runJsonItems xs
  | some (.obj kvs) =>
    match jGetD kvs "plans" (jGetD kvs "data" (jGetD kvs "results" (.arr []))) with
    | .arr xs => runJsonItems xs
    | .str "" => Except.ok []
    | .str _ => Except.error PyErr.attributeError
    | .obj [] => Except.ok []
    | .obj (_ :: _) => Except.error PyErr.attributeError
    | .num _ => Except.error PyErr.typeError
    | .bool _ => Except.error PyErr.typeError
    | .null => Except.error PyErr.typeError
  | some _ => Except.ok []

/-- The collision tie-break of the Deduplicator, as one binary operation: the
incoming plan `b` replaces the stored plan `a` only when its preference score
is strictly greater; on a tie the stored (first-encountered) plan stays. -/
def pick (a b : Plan) : Plan :=
  if calculate_plan_preference b > calculate_plan_preference a then b else a

/-- The winner of one fingerprint group: the left-to-right `pick`-fold over
the group's candidates in input order. -/
def groupFold : List Plan → Option Plan
  | [] => none
  | q :: qs => some (qs.foldl pick q)

/-- First-occurrence deduplication of a list: keeps the first copy of every
element, in first-occurrence order. -/
def firstDedup {α : Type} [DecidableEq α] : List α → List α
  | [] => []
  | a :: as => a :: firstDedup (as.filter (fun b => decide (b ≠ a)))
termination_by l => l.length
decreasing_by simpa using Nat.lt_succ_of_le (List.length_filter_le _ _)

/-- The candidates of one fingerprint, in input order. -/
def fpGroup (xs : List Plan) (fp : FingerprintData) : List Plan :=
  xs.filter (fun q => decide (create_plan_fingerprint q = fp))

/-- The fingerprint map that `deduplicate_plans` has built after consuming
`xs`, written out by specification: one entry per first-seen fingerprint, in
first-occurrence order, holding the `pick`-fold winner of that fingerprint's
group. -/
def stateSpec (xs : List Plan) : List (FingerprintData × Plan) :=
  (firstDedup (xs.map create_plan_fingerprint)).filterMap
    (fun fp => (groupFold (fpGroup xs fp)).map (fun w => (fp, w)))

/-- The Deduplicator, written out by specification: one output plan per
distinct fingerprint, ordered by first occurrence, each the `pick`-fold
winner of its group. -/
def dedupSpec (plans : List Plan) : List Plan := (stateSpec plans).map Prod.snd

/-- The utility codes of the `tdu_mapping` table. -/
def recognizedTduCodes : List String :=
  ["CENTERPOINT", "ONCOR", "AEP_CENTRAL", "AEP_NORTH", "TNMP", "LPL"]

/-- Sample CSV row: a variable-rate plan with a valid mid-tier price. -/
def csvVarRow : RawRow :=
  [("RepCompany", "Acme Power"), ("Product", "Basic Saver"), ("kwh1000", "14"),
   ("RateType", "variable")]

/-- The record `parse_csv_row` emits for `csvVarRow`. -/
def csvVarPlan : Plan := {
  plan_id := ""
  rep_name := "Acme Power"
  plan_name := "Basic Saver"
  tdu_area := "UNKNOWN"
  price_kwh_500 := some 14
  price_kwh_1000 := some 14
  price_kwh_2000 := some 14
  term_months := none
  rate_type := "VARIABLE"
  renewable_pct := some 0
  is_prepaid := false
  is_tou := false
  early_termination_fee := some 0
  base_charge_monthly := some 0
  efl_url := ""
  enrollment_url := ""
  terms_url := ""
  special_terms := ""
  promotion_details := ""
  fees_credits := ""
  min_usage_fees := ""
  language := "English" }

/-- Sample JSON item: a fixed-rate plan with numeric fields. -/
def jsonFixedItem : Json := Json.obj
  [("rateType", Json.str "Fixed"), ("repName", Json.str "Acme Power"),
   ("planName", Json.str "Basic Saver"), ("price500", Json.num 15),
   ("price1000", Json.num 14), ("price2000", Json.num 13),
   ("termMonths", Json.num 12), ("renewablePct", Json.num 6),
   ("etf", Json.num 150), ("baseCharge", Json.num 5)]

/-- The record `parse_json_item` emits for `jsonFixedItem`. -/
def jsonFixedPlan : Plan := {
  plan_id := ""
  rep_name := "Acme Power"
  plan_name := "Basic Saver"
  tdu_area := ""
  price_kwh_500 := some 15
  price_kwh_1000 := some 14
  price_kwh_2000 := some 13
  term_months := some 12
  rate_type := "FIXED"
  renewable_pct := some 6
  is_prepaid := false
  is_tou := false
  early_termination_fee := some 150
  base_charge_monthly := some 5
  efl_url := ""
  enrollment_url := ""
  terms_url := ""
  special_terms := ""
  promotion_details := ""
  fees_credits := ""
  min_usage_fees := ""
  language := "English" }

/-- Sample JSON item with empty provider and plan name but a valid fixed rate
and price: the JSON path has no name gate, so this item still emits a
record. -/
def jsonNoNameItem : Json := Json.obj
  [("rateType", Json.str "Fixed"), ("price1000", Json.num 10),
   ("termMonths", Json.num 12), ("renewablePct", Json.num 0),
   ("etf", Json.num 0), ("baseCharge", Json.num 0)]

/-- The record `parse_json_item` emits for `jsonNoNameItem`. -/
def jsonNoNamePlan : Plan := {
  plan_id := ""
  rep_name := ""
  plan_name := ""
  tdu_area := ""
  price_kwh_500 := some 10
  price_kwh_1000 := some 10
  price_kwh_2000 := some 10
  term_months := some 12
  rate_type := "FIXED"
  renewable_pct := some 0
  is_prepaid := false
  is_tou := false
  early_termination_fee := some 0
  base_charge_monthly := some 0
  efl_url := ""
  enrollment_url := ""
  terms_url := ""
  special_terms := ""
  promotion_details := ""
  fees_credits := ""
  min_usage_fees := ""
  language := "English" }

/-- Sample JSON item with a non-fixed rate type: silently dropped by the
JSON path. -/
def jsonVarItem : Json := Json.obj
  [("rateType", Json.str "Variable"), ("price1000", Json.num 10)]

/-- Sample English plan with a 10-character name. -/
def planEnglish : Plan := {
  plan_id := "1"
  rep_name := "Acme Power"
  plan_name := "Saver Plan"
  tdu_area := "ONCOR"
  price_kwh_500 := some 15
  price_kwh_1000 := some 14
  price_kwh_2000 := some 13
  term_months := some 12
  rate_type := "FIXED"
  renewable_pct := some 6
  is_prepaid := false
  is_tou := false
  early_termination_fee := some 150
  base_charge_monthly := some 5
  efl_url := ""
  enrollment_url := ""
  terms_url := ""
  special_terms := "¡Ahorre más! atención: cancelación ñ á é í ó ú"
  promotion_details := ""
  fees_credits := ""
  min_usage_fees := ""
  language := "English" }

/-- Sample Spanish plan with a 60-character name. -/
def planSpanish : Plan := {
  plan_id := "2"
  rep_name := "Acme Power"
  plan_name := "Plan de Ahorro Residencial Basico con Tarifa Fija Mensual 00"
  tdu_area := "ONCOR"
  price_kwh_500 := some 15
  price_kwh_1000 := some 14
  price_kwh_2000 := some 13
  term_months := some 12
  rate_type := "FIXED"
  renewable_pct := some 6
  is_prepaid := false
  is_tou := false
  early_termination_fee := some 150
  base_charge_monthly := some 5
  efl_url := ""
  enrollment_url := ""
  terms_url := ""
  special_terms := ""
  promotion_details := ""
  fees_credits := ""
  min_usage_fees := ""
  language := "Spanish" }

theorem parse_price_of_parse (s : String) (t : Bool × ℕ × ℕ × ℕ)
    (h : pyFloatParse (stripPriceChars s) = some t) :
    parse_price s = some (if decimalVal t < 1 then decimalVal t * 100 else decimalVal t) := by
  have hne : stripPriceChars s ≠ "" := by
    intro he
    have hnone : pyFloatParse "" = none := by decide
    rw [he, hnone] at h
    exact Option.noConfusion h
  unfold parse_price pyFloat
  simp [hne, h]
  split <;> simp

theorem parse_float_str_of_parse (s : String) (t : Bool × ℕ × ℕ × ℕ)
    (h : pyFloatParse (stripFloatChars s) = some t) :
    parse_float_str s = some (decimalVal t) := by
  have hne : stripFloatChars s ≠ "" := by
    intro he
    have hnone : pyFloatParse "" = none := by decide
    rw [he, hnone] at h
    exact Option.noConfusion h
  unfold parse_float_str pyFloat
  simp [hne, h]

theorem parse_int_str_of_parse (s : String) (t : Bool × ℕ × ℕ × ℕ)
    (hne : stripCommas s ≠ "") (htok : ¬(firstTokenPy (stripCommas s)).isEmpty)
    (h : pyFloatParse (String.mk (firstTokenPy (stripCommas s))) = some t) :
    parse_int_str s = some (pyTrunc (decimalVal t)) := by
  unfold parse_int_str pyFloat
  simp [hne, htok, h]

theorem parse_price_14 : parse_price "14" = some 14 := by
  rw [parse_price_of_parse "14" (false, 14, 0, 0) (by decide)]
  norm_num [decimalVal]

theorem parse_float_str_0 : parse_float_str "0" = some 0 := by
  rw [parse_float_str_of_parse "0" (false, 0, 0, 0) (by decide)]
  norm_num [decimalVal]

theorem parse_int_str_0 : parse_int_str "0" = some 0 := by
  rw [parse_int_str_of_parse "0" (false, 0, 0, 0) (by decide) (by decide) (by decide)]
  norm_num [decimalVal]
  decide

theorem parse_csv_row_csvVarRow : parse_csv_row csvVarRow = some csvVarPlan := by
  unfold parse_csv_row
  simp only [
    show get_val csvVarRow keysTdu = "" from by decide,
    show get_val csvVarRow keysKwh500 = "" from by decide,
    show get_val csvVarRow keysKwh1000 = "14" from by decide,
    show get_val csvVarRow keysKwh2000 = "" from by decide,
    show get_val csvVarRow keysCancelFee = "" from by decide,
    show get_val csvVarRow keysPricingDetails = "" from by decide,
    show get_val csvVarRow keysLanguage = "" from by decide,
    show get_val csvVarRow keysPlanId = "" from by decide,
    show get_val csvVarRow keysRepName = "Acme Power" from by decide,
    show get_val csvVarRow keysPlanName = "Basic Saver" from by decide,
    show get_val csvVarRow keysTerm = "" from by decide,
    show get_val csvVarRow keysRateType = "variable" from by decide,
    show get_val csvVarRow keysRenewable = "" from by decide,
    show get_val csvVarRow keysPrepaid = "" from by decide,
    show get_val csvVarRow keysTou = "" from by decide,
    show get_val csvVarRow keysBaseCharge = "" from by decide,
    show get_val csvVarRow keysEfl = "" from by decide,
    show get_val csvVarRow keysEnroll = "" from by decide,
    show get_val csvVarRow keysTos = "" from by decide,
    show get_val csvVarRow keysSpecialTerms = "" from by decide,
    show get_val csvVarRow keysPromotion = "" from by decide,
    show get_val csvVarRow keysFeesCredits = "" from by decide,
    show get_val csvVarRow keysMinUsage = "" from by decide]
  simp only [
    show extractCancelFee "" = none from by decide,
    show normalize_tdu_name "" = "UNKNOWN" from by decide,
    show orDefault "" "English" = "English" from rfl,
    show orDefault "" "FIXED" = "FIXED" from rfl,
    show orDefault "variable" "FIXED" = "variable" from rfl,
    show orDefault "" "0" = "0" from rfl,
    Option.getD,
    show parse_price "" = none from by decide,
    parse_price_14, parse_float_str_0, parse_int_str_0,
    show parse_int_str "" = none from by decide]
  norm_num [backfill, csvVarPlan]
  simp only [show orDefault "" "0" = "0" from rfl, parse_float_str_0]
  decide

theorem backfill_isSome (t : Option ℚ) (v : ℚ) : (backfill t v).isSome := by
  cases t with
  | none => rfl
  | some w => by_cases h : w = 0 <;> simp [backfill, h]

theorem parse_csv_row_inv (row : RawRow) (p : Plan) (h : parse_csv_row row = some p) :
    ∃ v, parse_price (get_val row keysKwh1000) = some v ∧ 0 < v ∧
      p.price_kwh_1000 = some v ∧
      p.rep_name = sanitize_string (get_val row keysRepName) ∧ p.rep_name ≠ "" ∧
      p.plan_name = sanitize_string (get_val row keysPlanName) ∧ p.plan_name ≠ "" ∧
      p.price_kwh_500 = backfill (parse_price (get_val row keysKwh500)) v ∧
      p.price_kwh_2000 = backfill (parse_price (get_val row keysKwh2000)) v ∧
      p.rate_type = pyUpper (sanitize_string (orDefault (get_val row keysRateType) "FIXED")) := by
  unfold parse_csv_row at h
  dsimp only at h
  cases hv : parse_price (get_val row keysKwh1000) with
  | none =>
    rw [hv] at h
    exact Option.noConfusion h
  | some v =>
    rw [hv] at h
    dsimp only at h
    by_cases hle : v ≤ 0
    · rw [if_pos hle] at h
      exact Option.noConfusion h
    · rw [if_neg hle] at h
      by_cases hn : sanitize_string (get_val row keysRepName) = "" ∨
          sanitize_string (get_val row keysPlanName) = ""
      · rw [if_pos hn] at h
        exact Option.noConfusion h
      · rw [if_neg hn] at h
        push_neg at hn
        have hp := Option.some.inj h
        subst hp
        exact ⟨v, rfl, lt_of_not_le hle, rfl, rfl, hn.1, rfl, hn.2, rfl, rfl, rfl⟩

theorem parse_json_item_inv (item : Json) (p : Plan)
    (h : parse_json_item item = Except.ok (some p)) :
    ∃ kvs rt0, item = Json.obj kvs ∧
      jGetD kvs "rateType" (jGetD kvs "rate_type" (Json.str "")) = Json.str rt0 ∧
      strContains (pyUpper rt0) "FIXED" = true ∧
      p.rate_type = "FIXED" ∧
      (∃ v, p.price_kwh_1000 = some v ∧ 0 < v ∧
        (∃ pre, jParseFloat (jGetD kvs "price500" (jGetD kvs "priceKwh500" (Json.str ""))) =
            Except.ok pre ∧ p.price_kwh_500 = backfill pre v) ∧
        (∃ pre, jParseFloat (jGetD kvs "price2000" (jGetD kvs "priceKwh2000" (Json.str ""))) =
            Except.ok pre ∧ p.price_kwh_2000 = backfill pre v)) := by
  cases item with
  | str s => exact Except.noConfusion h
  | num q => exact Except.noConfusion h
  | bool b => exact Except.noConfusion h
  | null => exact Except.noConfusion h
  | arr xs => exact Except.noConfusion h
  | obj kvs =>
    refine ⟨kvs, ?_⟩
    unfold parse_json_item at h
    dsimp only at h
    cases hrt : jGetD kvs "rateType" (jGetD kvs "rate_type" (Json.str "")) with
    | num q => rw [hrt] at h; exact Except.noConfusion h
    | bool b => rw [hrt] at h; exact Except.noConfusion h
    | null => rw [hrt] at h; exact Except.noConfusion h
    | arr xs => rw [hrt] at h; exact Except.noConfusion h
    | obj kvs2 => rw [hrt] at h; exact Except.noConfusion h
    | str rt0 =>
      rw [hrt] at h
      dsimp only at h
      by_cases hfx : strContains (pyUpper rt0) "FIXED" = true
      · rw [if_neg (by simp [hfx])] at h
        cases h5 : jParseFloat (jGetD kvs "price500" (jGetD kvs "priceKwh500" (Json.str ""))) with
        | error e => rw [h5] at h; simp at h
        | ok p500 =>
          rw [h5] at h
          cases h10 : jParseFloat (jGetD kvs "price1000" (jGetD kvs "priceKwh1000" (Json.str ""))) with
          | error e => rw [h10] at h; simp at h
          | ok p1000 =>
            rw [h10] at h
            cases h20 : jParseFloat (jGetD kvs "price2000" (jGetD kvs "priceKwh2000" (Json.str ""))) with
            | error e => rw [h20] at h; simp at h
            | ok p2000 =>
              rw [h20] at h
              cases hetf : jParseFloat (jGetD kvs "etf" (jGetD kvs "cancellationFee" (Json.str "0"))) with
              | error e => rw [hetf] at h; simp at h
              | ok etf =>
                rw [hetf] at h
                cases hbase : jParseFloat (jGetD kvs "baseCharge" (jGetD kvs "monthlyCharge" (Json.str "0"))) with
                | error e => rw [hbase] at h; simp at h
                | ok base =>
                  rw [hbase] at h
                  dsimp only at h
                  cases hp1000 : p1000 with
                  | none => rw [hp1000] at h; simp at h
                  | some v =>
                    rw [hp1000] at h
                    dsimp only at h
                    by_cases hvpos : v > 0
                    · rw [if_pos hvpos] at h
                      have hp := Option.some.inj (Except.ok.inj h)
                      subst hp
                      exact ⟨rt0, rfl, rfl, hfx, rfl,
                        v, rfl, hvpos, ⟨p500, rfl, rfl⟩, ⟨p2000, rfl, rfl⟩⟩
                    · rw [if_neg hvpos] at h
                      simp at h
      · rw [if_pos (by simpa using hfx)] at h
        simp at h

theorem parse_json_item_jsonFixedItem :
    parse_json_item jsonFixedItem = Except.ok (some jsonFixedPlan) := by rfl

/-- C4 amended: both paths emit a record only when the coerced mid-tier price
is present and strictly positive, skipping the row or item entirely
otherwise; the non-empty `rep_name`/`plan_name` gate applies only to the CSV
path. -/
theorem record_emission_gate :
    (∀ (row : RawRow) (p : Plan), parse_csv_row row = some p →
      (∃ v, parse_price (get_val row keysKwh1000) = some v ∧ 0 < v) ∧
      sanitize_string (get_val row keysRepName) ≠ "" ∧
      sanitize_string (get_val row keysPlanName) ≠ "") ∧
    (∀ (item : Json) (p : Plan), parse_json_item item = Except.ok (some p) →
      ∃ v, p.price_kwh_1000 = some v ∧ 0 < v) := by
  constructor
  · intro row p h
    obtain ⟨v, hv, hpos, _, hrep_eq, hrep_ne, hpn_eq, hpn_ne, -⟩ := parse_csv_row_inv row p h
    exact ⟨⟨v, hv, hpos⟩, hrep_eq ▸ hrep_ne, hpn_eq ▸ hpn_ne⟩
  · intro item p h
    obtain ⟨kvs, rt0, -, -, -, -, v, hv, hpos, -⟩ := parse_json_item_inv item p h
    exact ⟨v, hv, hpos⟩

/-- C4 counterexample: a JSON item with empty provider and plan name but a
positive fixed-rate price still emits a record, so the name gate does not
apply to the JSON path as claimed. -/
theorem record_emission_gate_counterexample :
    parse_json_item jsonNoNameItem = Except.ok (some jsonNoNamePlan) ∧
    jsonNoNamePlan.rep_name = "" ∧ jsonNoNamePlan.plan_name = "" ∧
    jsonNoNamePlan.price_kwh_1000 = some 10 :=
  ⟨by rfl, rfl, rfl, rfl⟩

/-- C4 witness: the amended gate applied to a concrete CSV row and a concrete
JSON item. -/
theorem record_emission_gate_witness :
    ((∃ v, parse_price (get_val csvVarRow keysKwh1000) = some v ∧ 0 < v) ∧
      sanitize_string (get_val csvVarRow keysRepName) ≠ "" ∧
      sanitize_string (get_val csvVarRow keysPlanName) ≠ "") ∧
    (∃ v, jsonFixedPlan.price_kwh_1000 = some v ∧ 0 < v) :=
  ⟨record_emission_gate.1 csvVarRow csvVarPlan parse_csv_row_csvVarRow,
   record_emission_gate.2 jsonFixedItem jsonFixedPlan parse_json_item_jsonFixedItem⟩

/-- C5: every emitted record has both outer price tiers present, each equal
to the `backfill` of its coerced raw value by the mid-tier price (a missing
or zero tier becomes the mid-tier value). -/
theorem price_tier_backfill :
    (∀ (row : RawRow) (p : Plan), parse_csv_row row = some p →
      p.price_kwh_500.isSome ∧ p.price_kwh_2000.isSome ∧
      ∃ v, p.price_kwh_1000 = some v ∧
        p.price_kwh_500 = backfill (parse_price (get_val row keysKwh500)) v ∧
        p.price_kwh_2000 = backfill (parse_price (get_val row keysKwh2000)) v) ∧
    (∀ (item : Json) (p : Plan), parse_json_item item = Except.ok (some p) →
      p.price_kwh_500.isSome ∧ p.price_kwh_2000.isSome) := by
  constructor
  · intro row p h
    obtain ⟨v, hv, hpos, h1000, _, _, _, _, h500, h2000, -⟩ := parse_csv_row_inv row p h
    exact ⟨h500 ▸ backfill_isSome _ v, h2000 ▸ backfill_isSome _ v, v, h1000, h500, h2000⟩
  · intro item p h
    obtain ⟨kvs, rt0, -, -, -, -, v, hv, hpos, ⟨pre5, h5, h500⟩, pre2, h2, h2000⟩ :=
      parse_json_item_inv item p h
    exact ⟨h500 ▸ backfill_isSome pre5 v, h2000 ▸ backfill_isSome pre2 v⟩

/-- C5 witness: the backfill invariant applied to a concrete CSV row and a
concrete JSON item. -/
theorem price_tier_backfill_witness :
    csvVarPlan.price_kwh_500.isSome ∧ csvVarPlan.price_kwh_2000.isSome ∧
    jsonFixedPlan.price_kwh_500.isSome ∧ jsonFixedPlan.price_kwh_2000.isSome :=
  ⟨(price_tier_backfill.1 csvVarRow csvVarPlan parse_csv_row_csvVarRow).1,
   (price_tier_backfill.1 csvVarRow csvVarPlan parse_csv_row_csvVarRow).2.1,
   (price_tier_backfill.2 jsonFixedItem jsonFixedPlan parse_json_item_jsonFixedItem).1,
   (price_tier_backfill.2 jsonFixedItem jsonFixedPlan parse_json_item_jsonFixedItem).2⟩

/-- C10: the JSON path emits a record only when the item's rate type value is
a string whose upper-casing contains `FIXED`, every emitted record carries
rate type exactly `FIXED`, any other string rate type is silently dropped
(no record and no exception), and the CSV path emits records of any rate
type (here a `VARIABLE` one). -/
theorem json_path_fixed_only :
    (∀ (item : Json) (p : Plan), parse_json_item item = Except.ok (some p) →
      p.rate_type = "FIXED" ∧
      ∃ kvs rt0, item = Json.obj kvs ∧
        jGetD kvs "rateType" (jGetD kvs "rate_type" (Json.str "")) = Json.str rt0 ∧
        strContains (pyUpper rt0) "FIXED" = true) ∧
    (∀ (kvs : List (String × Json)) (rt0 : String),
      jGetD kvs "rateType" (jGetD kvs "rate_type" (Json.str "")) = Json.str rt0 →
      ¬strContains (pyUpper rt0) "FIXED" = true →
      parse_json_item (Json.obj kvs) = Except.ok none) ∧
    parse_csv_row csvVarRow = some csvVarPlan ∧ csvVarPlan.rate_type = "VARIABLE" := by
  refine ⟨?_, ?_, parse_csv_row_csvVarRow, rfl⟩
  · intro item p h
    obtain ⟨kvs, rt0, hitem, hrt, hfx, hrate, -⟩ := parse_json_item_inv item p h
    exact ⟨hrate, kvs, rt0, hitem, hrt, hfx⟩
  · intro kvs rt0 hrt hnfx
    unfold parse_json_item
    dsimp only
    rw [hrt]
    dsimp only
    rw [if_pos (by simpa using hnfx)]

/-- C10 witness: the theorem applied to the concrete fixed-rate item (record
emitted, rate type `FIXED`) and to a concrete variable-rate item (silently
dropped). -/
theorem json_path_fixed_only_witness :
    jsonFixedPlan.rate_type = "FIXED" ∧
    parse_json_item jsonVarItem = Except.ok none :=
  ⟨(json_path_fixed_only.1 jsonFixedItem jsonFixedPlan parse_json_item_jsonFixedItem).1,
   json_path_fixed_only.2.1 [("rateType", Json.str "Variable"), ("price1000", Json.num 10)]
     "Variable" rfl (by decide)⟩

/-- C9: a CSV document with no columns header makes `parse_csv_to_plans`
raise an uncaught `ValueError` (the handler catches only `csv.Error`), and an
object whose `plans` key holds a non-array makes `parse_json_to_plans` raise
an uncaught `TypeError` — while undecodable JSON, a non-container top level
and an object without a plan array do return the empty list. -/
theorem document_failure_behavior :
    parse_csv_to_plans "" = Except.error PyErr.valueError ∧
    parse_json_to_plans none = Except.ok [] ∧
    parse_json_to_plans (some (Json.num 7)) = Except.ok [] ∧
    parse_json_to_plans (some (Json.str "nonsense")) = Except.ok [] ∧
    parse_json_to_plans (some (Json.obj [("other", Json.num 1)])) = Except.ok [] ∧
    parse_json_to_plans (some (Json.obj [("plans", Json.num 42)])) = Except.error PyErr.typeError :=
  ⟨by rfl, by rfl, by rfl, by rfl, by rfl, by rfl⟩

theorem mem_firstDedup {α : Type} [DecidableEq α] (l : List α) :
    ∀ b : α, b ∈ firstDedup l ↔ b ∈ l := by
  induction l using firstDedup.induct with
  | case1 => intro b; rw [firstDedup]
  | case2 a as ih =>
    intro b
    rw [firstDedup]
    by_cases hb : b = a
    · subst hb; simp
    · simp only [List.mem_cons, ih, List.mem_filter, decide_eq_true_eq]
      constructor
      · rintro (h | ⟨h, -⟩)
        · exact Or.inl h
        · exact Or.inr h
      · rintro (h | h)
        · exact Or.inl h
        · exact Or.inr ⟨h, by simpa using hb⟩

theorem nodup_firstDedup {α : Type} [DecidableEq α] (l : List α) : (firstDedup l).Nodup := by
  induction l using firstDedup.induct with
  | case1 => rw [firstDedup]; exact List.nodup_nil
  | case2 a as ih =>
    rw [firstDedup]
    refine List.Nodup.cons ?_ ih
    intro hmem
    have := (mem_firstDedup _ a).mp hmem
    simp at this

theorem firstDedup_append_mem {α : Type} [DecidableEq α] (l : List α) :
    ∀ a ∈ l, firstDedup (l ++ [a]) = firstDedup l := by
  induction l using firstDedup.induct with
  | case1 => intro a ha; exact absurd ha (List.not_mem_nil a)
  | case2 x xs ih =>
    intro a ha
    rw [List.cons_append, firstDedup, firstDedup, List.filter_append]
    by_cases hax : a = x
    · subst hax
      simp
    · have h1 : List.filter (fun b => decide (b ≠ x)) [a] = [a] := by simp [hax]
      rw [h1]
      have h2 : a ∈ List.filter (fun b => decide (b ≠ x)) xs := by
        rw [List.mem_filter]
        refine ⟨?_, by simpa using hax⟩
        rcases List.mem_cons.mp ha with h | h
        · exact absurd h hax
        · exact h
      rw [ih a h2]

theorem firstDedup_append_not_mem {α : Type} [DecidableEq α] (l : List α) :
    ∀ a : α, a ∉ l → firstDedup (l ++ [a]) = firstDedup l ++ [a] := by
  induction l using firstDedup.induct with
  | case1 => intro a ha; simp [firstDedup]
  | case2 x xs ih =>
    intro a ha
    have hax : a ≠ x := fun h => ha (h ▸ List.mem_cons_self x xs)
    have haxs : a ∉ xs := fun h => ha (List.mem_cons_of_mem x h)
    rw [List.cons_append, firstDedup, firstDedup, List.filter_append]
    have h1 : List.filter (fun b => decide (b ≠ x)) [a] = [a] := by simp [hax]
    rw [h1]
    have h2 : a ∉ List.filter (fun b => decide (b ≠ x)) xs := fun h =>
      haxs (List.mem_of_mem_filter h)
    rw [ih a h2, List.cons_append]

theorem firstDedup_eq_self {α : Type} [DecidableEq α] (l : List α) (h : l.Nodup) :
    firstDedup l = l := by
  induction l with
  | nil => rw [firstDedup]
  | cons a as ih =>
    rw [firstDedup]
    have hfa : as.filter (fun b => decide (b ≠ a)) = as := by
      refine List.filter_eq_self.mpr ?_
      intro b hb
      simp only [decide_eq_true_eq]
      intro hba
      subst hba
      exact (List.nodup_cons.mp h).1 hb
    rw [hfa, ih (List.nodup_cons.mp h).2]

theorem foldl_pick_mem (qs : List Plan) : ∀ q : Plan, qs.foldl pick q ∈ q :: qs := by
  induction qs with
  | nil => intro q; exact List.mem_singleton.mpr rfl
  | cons a qs ih =>
    intro q
    show List.foldl pick (pick q a) qs ∈ q :: a :: qs
    have h2 : pick q a = q ∨ pick q a = a := by
      unfold pick
      split
      · exact Or.inr rfl
      · exact Or.inl rfl
    rcases List.mem_cons.mp (ih (pick q a)) with h | h
    · rw [h]
      rcases h2 with h2 | h2 <;> rw [h2] <;> simp
    · exact List.mem_cons_of_mem _ (List.mem_cons_of_mem _ h)

theorem groupFold_mem (l : List Plan) (w : Plan) (h : groupFold l = some w) : w ∈ l := by
  cases l with
  | nil => exact Option.noConfusion h
  | cons q qs =>
    have hw := Option.some.inj h
    subst hw
    exact foldl_pick_mem qs q

theorem groupFold_isSome (l : List Plan) (h : l ≠ []) : (groupFold l).isSome := by
  cases l with
  | nil => exact absurd rfl h
  | cons q qs => rfl

theorem groupFold_append_singleton (l : List Plan) (p : Plan) :
    groupFold (l ++ [p]) =
      some (match groupFold l with | none => p | some w => pick w p) := by
  cases l with
  | nil => rfl
  | cons q qs =>
    simp only [List.cons_append, groupFold]
    rw [List.foldl_append]
    rfl

theorem fpGroup_ne_nil (xs : List Plan) (fp : FingerprintData)
    (h : fp ∈ xs.map create_plan_fingerprint) : fpGroup xs fp ≠ [] := by
  obtain ⟨q, hq, hkq⟩ := List.mem_map.mp h
  exact List.ne_nil_of_mem (List.mem_filter.mpr ⟨hq, by simp [hkq]⟩)

theorem fpGroup_eq_nil (xs : List Plan) (fp : FingerprintData)
    (h : fp ∉ xs.map create_plan_fingerprint) : fpGroup xs fp = [] := by
  refine List.filter_eq_nil_iff.mpr ?_
  intro q hq
  simp only [decide_eq_true_eq]
  intro hk
  exact h (List.mem_map.mpr ⟨q, hq, hk⟩)

theorem fpGroup_append (xs : List Plan) (p : Plan) (fp : FingerprintData) :
    fpGroup (xs ++ [p]) fp =
      fpGroup xs fp ++ (if create_plan_fingerprint p = fp then [p] else []) := by
  unfold fpGroup
  rw [List.filter_append]
  congr 1
  by_cases h : create_plan_fingerprint p = fp <;> simp [h]

theorem stateSpec_entry (xs : List Plan) (fp : FingerprintData)
    (h : fp ∈ xs.map create_plan_fingerprint) :
    ∃ w, groupFold (fpGroup xs fp) = some w ∧ create_plan_fingerprint w = fp := by
  obtain ⟨w, hw⟩ := Option.isSome_iff_exists.mp (groupFold_isSome _ (fpGroup_ne_nil xs fp h))
  refine ⟨w, hw, ?_⟩
  have hmem := groupFold_mem _ _ hw
  have := (List.mem_filter.mp hmem).2
  simpa using this

theorem stateSpec_keys_aux (xs : List Plan) (K : List FingerprintData)
    (H : ∀ fp ∈ K, fp ∈ xs.map create_plan_fingerprint) :
    (K.filterMap
        (fun fp => (groupFold (fpGroup xs fp)).map (fun w => (fp, w)))).map Prod.fst = K := by
  induction K with
  | nil => rfl
  | cons a K ih =>
    obtain ⟨w, hw, -⟩ := stateSpec_entry xs a (H a (List.mem_cons_self a K))
    rw [List.filterMap_cons]
    rw [hw]
    simp only [Option.map_some']
    rw [List.map_cons]
    rw [ih (fun fp hfp => H fp (List.mem_cons_of_mem a hfp))]

theorem stateSpec_keys (xs : List Plan) :
    (stateSpec xs).map Prod.fst = firstDedup (xs.map create_plan_fingerprint) :=
  stateSpec_keys_aux xs _ (fun fp hfp => (mem_firstDedup _ fp).mp hfp)

theorem dedupSpec_keys_aux (xs : List Plan) (K : List FingerprintData)
    (H : ∀ fp ∈ K, fp ∈ xs.map create_plan_fingerprint) :
    ((K.filterMap
        (fun fp => (groupFold (fpGroup xs fp)).map (fun w => (fp, w)))).map
      Prod.snd).map create_plan_fingerprint = K := by
  induction K with
  | nil => rfl
  | cons a K ih =>
    obtain ⟨w, hw, hkw⟩ := stateSpec_entry xs a (H a (List.mem_cons_self a K))
    rw [List.filterMap_cons, hw]
    simp only [Option.map_some']
    rw [List.map_cons, List.map_cons, hkw]
    rw [ih (fun fp hfp => H fp (List.mem_cons_of_mem a hfp))]

theorem dedupSpec_keys (xs : List Plan) :
    (dedupSpec xs).map create_plan_fingerprint = firstDedup (xs.map create_plan_fingerprint) :=
  dedupSpec_keys_aux xs _ (fun fp hfp => (mem_firstDedup _ fp).mp hfp)

theorem stateSpec_find_isSome (xs : List Plan) (fp : FingerprintData) :
    ((stateSpec xs).find? (fun kv => decide (kv.1 = fp))).isSome = true ↔
      fp ∈ xs.map create_plan_fingerprint := by
  rw [List.find?_isSome]
  constructor
  · rintro ⟨kv, hkv, hp⟩
    have h1 : kv.1 = fp := by simpa using hp
    have h2 : kv.1 ∈ (stateSpec xs).map Prod.fst := List.mem_map.mpr ⟨kv, hkv, rfl⟩
    rw [stateSpec_keys] at h2
    exact (mem_firstDedup _ _).mp (h1 ▸ h2)
  · intro h
    have h2 : fp ∈ (stateSpec xs).map Prod.fst := by
      rw [stateSpec_keys]
      exact (mem_firstDedup _ _).mpr h
    obtain ⟨kv, hkv, hfst⟩ := List.mem_map.mp h2
    exact ⟨kv, hkv, by simp [hfst]⟩

theorem dedupStep_stateSpec (xs : List Plan) (p : Plan) :
    dedupStep (stateSpec xs) p = stateSpec (xs ++ [p]) := by
  unfold dedupStep
  by_cases hmem : create_plan_fingerprint p ∈ xs.map create_plan_fingerprint
  · rw [if_pos ((stateSpec_find_isSome xs _).mpr hmem)]
    show (stateSpec xs).map _ = _
    unfold stateSpec
    rw [List.map_filterMap]
    have hK : firstDedup ((xs ++ [p]).map create_plan_fingerprint) =
        firstDedup (xs.map create_plan_fingerprint) := by
      rw [List.map_append]
      exact firstDedup_append_mem _ _ (by simpa using hmem)
    rw [hK]
    refine List.filterMap_congr ?_
    intro fp hfp
    have hfpx : fp ∈ xs.map create_plan_fingerprint := (mem_firstDedup _ fp).mp hfp
    obtain ⟨w, hw, hkw⟩ := stateSpec_entry xs fp hfpx
    by_cases heq : create_plan_fingerprint p = fp
    · rw [hw, fpGroup_append, if_pos heq, groupFold_append_singleton, hw]
      simp only [Option.map_some']
      subst heq
      rw [if_pos rfl]
      rfl
    · rw [hw, fpGroup_append, if_neg heq, List.append_nil, hw]
      simp only [Option.map_some']
      rw [if_neg (fun hh => heq hh.symm)]
  · rw [if_neg (by simpa using fun hh => hmem ((stateSpec_find_isSome xs _).mp hh))]
    unfold stateSpec
    have hK : firstDedup ((xs ++ [p]).map create_plan_fingerprint) =
        firstDedup (xs.map create_plan_fingerprint) ++ [create_plan_fingerprint p] := by
      rw [List.map_append]
      exact firstDedup_append_not_mem _ _ (by simpa using hmem)
    rw [hK, List.filterMap_append]
    congr 1
    · refine List.filterMap_congr ?_
      intro fp hfp
      have hfpx : fp ∈ xs.map create_plan_fingerprint := (mem_firstDedup _ fp).mp hfp
      have hne : create_plan_fingerprint p ≠ fp := fun hh => hmem (hh ▸ hfpx)
      rw [fpGroup_append, if_neg hne, List.append_nil]
    · have hnil : fpGroup xs (create_plan_fingerprint p) = [] := fpGroup_eq_nil xs _ hmem
      rw [List.filterMap_cons]
      rw [fpGroup_append, if_pos rfl, hnil, List.nil_append]
      rfl

theorem foldl_dedupStep_stateSpec (ps : List Plan) :
    ∀ xs : List Plan, ps.foldl dedupStep (stateSpec xs) = stateSpec (xs ++ ps) := by
  induction ps with
  | nil => intro xs; rw [List.foldl_nil, List.append_nil]
  | cons p ps ih =>
    intro xs
    rw [List.foldl_cons, dedupStep_stateSpec, ih (xs ++ [p])]
    rw [List.append_assoc]
    rfl

theorem stateSpec_nil : stateSpec [] = [] := by
  unfold stateSpec
  rw [List.map_nil, firstDedup]
  rfl

theorem dedup_eq_dedupSpec (plans : List Plan) : deduplicate_plans plans = dedupSpec plans := by
  unfold deduplicate_plans dedupSpec
  have h : plans.foldl dedupStep [] = stateSpec plans := by
    have := foldl_dedupStep_stateSpec plans []
    rw [stateSpec_nil] at this
    rw [this, List.nil_append]
  rw [h]

theorem dedup_eq_self_of_nodup (l : List Plan)
    (h : (l.map create_plan_fingerprint).Nodup) : dedupSpec l = l := by
  induction l with
  | nil =>
    unfold dedupSpec
    rw [stateSpec_nil]
    rfl
  | cons p l ih =>
    have hnotin : create_plan_fingerprint p ∉ l.map create_plan_fingerprint :=
      (List.nodup_cons.mp (by simpa using h)).1
    have htail : (l.map create_plan_fingerprint).Nodup :=
      (List.nodup_cons.mp (by simpa using h)).2
    unfold dedupSpec stateSpec
    rw [List.map_cons, firstDedup]
    have hfilter : (l.map create_plan_fingerprint).filter
        (fun b => decide (b ≠ create_plan_fingerprint p)) = l.map create_plan_fingerprint := by
      refine List.filter_eq_self.mpr ?_
      intro b hb
      simp only [decide_eq_true_eq]
      intro hbp
      exact hnotin (hbp ▸ hb)
    rw [hfilter, firstDedup_eq_self _ htail]
    rw [List.filterMap_cons]
    have hgp : fpGroup (p :: l) (create_plan_fingerprint p) = [p] := by
      have hnil := fpGroup_eq_nil l _ hnotin
      unfold fpGroup at hnil ⊢
      rw [List.filter_cons, if_pos (by simp), hnil]
    rw [hgp]
    have hrest : ∀ fp ∈ l.map create_plan_fingerprint,
        fpGroup (p :: l) fp = fpGroup l fp := by
      intro fp hfp
      unfold fpGroup
      rw [List.filter_cons, if_neg (by
        simp only [decide_eq_true_eq]
        intro hh
        exact hnotin (hh ▸ hfp))]
    have hcong : (l.map create_plan_fingerprint).filterMap
        (fun fp => (groupFold (fpGroup (p :: l) fp)).map (fun w => (fp, w))) =
        (l.map create_plan_fingerprint).filterMap
        (fun fp => (groupFold (fpGroup l fp)).map (fun w => (fp, w))) := by
      refine List.filterMap_congr ?_
      intro fp hfp
      rw [hrest fp hfp]
    rw [hcong]
    have hfl : (l.map create_plan_fingerprint).filterMap
        (fun fp => (groupFold (fpGroup l fp)).map (fun w => (fp, w))) = stateSpec l := by
      unfold stateSpec
      rw [firstDedup_eq_self _ htail]
    rw [hfl]
    simp only [groupFold, List.foldl_nil, Option.map_some']
    rw [List.map_cons]
    have hih : (stateSpec l).map Prod.snd = l := ih htail
    rw [hih]

/-- C2: deduplication keeps exactly one plan per distinct fingerprint — the
left-to-right `pick`-fold winner of the fingerprint's group, so a stored plan
is replaced only by a strictly higher-scoring candidate and a tie keeps the
first — and the output is ordered by first occurrence of each fingerprint. -/
theorem deduplicate_plans_characterization (plans : List Plan) :
    deduplicate_plans plans = dedupSpec plans ∧
    (deduplicate_plans plans).map create_plan_fingerprint =
      firstDedup (plans.map create_plan_fingerprint) ∧
    ((deduplicate_plans plans).map create_plan_fingerprint).Nodup := by
  refine ⟨dedup_eq_dedupSpec plans, ?_, ?_⟩
  · rw [dedup_eq_dedupSpec plans]
    exact dedupSpec_keys plans
  · rw [dedup_eq_dedupSpec plans, dedupSpec_keys plans]
    exact nodup_firstDedup _

/-- C3: deduplication is idempotent. -/
theorem deduplicate_plans_idempotent (plans : List Plan) :
    deduplicate_plans (deduplicate_plans plans) = deduplicate_plans plans := by
  have hnodup : ((deduplicate_plans plans).map create_plan_fingerprint).Nodup := by
    rw [dedup_eq_dedupSpec plans, dedupSpec_keys plans]
    exact nodup_firstDedup _
  rw [dedup_eq_dedupSpec (deduplicate_plans plans)]
  exact dedup_eq_self_of_nodup _ hnodup

/-- C7: `parse_price` strips `$`, `,` and `%`, parses the rest as a float,
multiplies by 100 when the value is below 1 and otherwise returns it as-is;
non-numeric or empty input yields `none`; in particular both `"0.0950"` and
`"9.50"` coerce to `9.5`. -/
theorem parse_price_unit_inference :
    (∀ s : String, parse_price s =
        Option.map (fun num => if num < 1 then num * 100 else num) (pyFloat (stripPriceChars s)))
    ∧ parse_price "0.0950" = some (19 / 2)
    ∧ parse_price "9.50" = some (19 / 2)
    ∧ parse_price "$1,234%" = some 1234
    ∧ parse_price "" = none
    ∧ parse_price "abc" = none := by
  refine ⟨fun s => ?_, ?_, ?_, ?_, by decide, by decide⟩
  · unfold parse_price pyFloat
    by_cases h : stripPriceChars s = ""
    · rw [h]
      simp [show pyFloatParse "" = none from by decide]
    · simp only [h, if_false]
      cases pyFloatParse (stripPriceChars s) with
      | none => simp
      | some t => by_cases hc : decimalVal t < 1 <;> simp [hc]
  · rw [parse_price_of_parse "0.0950" (false, 0, 950, 4) (by decide)]
    norm_num [decimalVal]
  · rw [parse_price_of_parse "9.50" (false, 9, 50, 2) (by decide)]
    norm_num [decimalVal]
  · rw [parse_price_of_parse "$1,234%" (false, 1234, 0, 0) (by decide)]
    norm_num [decimalVal]

/-- C8 counterexample: an unmapped utility name passes through upper-cased
instead of collapsing to a recognized code or `UNKNOWN`. -/
theorem normalize_tdu_unmapped_counterexample :
    normalize_tdu_name "Some New Utility" = "SOME NEW UTILITY" ∧
    "SOME NEW UTILITY" ∉ recognizedTduCodes ∧ "SOME NEW UTILITY" ≠ "UNKNOWN" :=
  ⟨by decide, by decide, by decide⟩

/-- C8 amended: the normalized TDU area is a recognized code from the fixed
table, or `UNKNOWN` (absent input), or the raw input upper-cased and trimmed
(unmapped passthrough). -/
theorem normalize_tdu_cases (s : String) :
    normalize_tdu_name s ∈ recognizedTduCodes ∨ normalize_tdu_name s = "UNKNOWN" ∨
    normalize_tdu_name s = pyStrip (pyUpper s) := by
  have hcodes : ∀ kv ∈ tdu_mapping, kv.2 ∈ recognizedTduCodes := by decide
  unfold normalize_tdu_name
  by_cases h : s = ""
  · simp [h]
  · simp only [h, if_false]
    cases h1 : tdu_mapping.find? (fun kv => kv.1 == pyStrip (pyUpper s)) with
    | some kv =>
      exact Or.inl (hcodes kv (List.mem_of_find?_eq_some h1))
    | none =>
      cases h2 : tdu_mapping.find? (fun kv =>
          strContains (pyStrip (pyUpper s)) kv.1 || strContains kv.1 (pyStrip (pyUpper s))) with
      | some kv =>
        exact Or.inl (hcodes kv (List.mem_of_find?_eq_some h2))
      | none =>
        right; right; rfl

/-- C1: two plans have the same fingerprint exactly when the upper-trimmed
provider, TDU area and rate type (defaulting `FIXED`), the rounded price
tiers and fees, the defaulted term, renewable percentage and the two flags
all agree; the fingerprint never reads `plan_id`, `plan_name`, the URL and
free-text fields or `language`, so plans differing only there collide. -/
theorem fingerprint_collision_iff :
    (∀ p1 p2 : Plan,
      create_plan_fingerprint p1 = create_plan_fingerprint p2 ↔
        (pyStrip (pyUpper p1.rep_name) = pyStrip (pyUpper p2.rep_name) ∧
         pyStrip (pyUpper p1.tdu_area) = pyStrip (pyUpper p2.tdu_area) ∧
         pyStrip (pyUpper (orDefault p1.rate_type "FIXED")) =
           pyStrip (pyUpper (orDefault p2.rate_type "FIXED")) ∧
         normalize_price p1.price_kwh_500 = normalize_price p2.price_kwh_500 ∧
         normalize_price p1.price_kwh_1000 = normalize_price p2.price_kwh_1000 ∧
         normalize_price p1.price_kwh_2000 = normalize_price p2.price_kwh_2000 ∧
         p1.term_months.getD 0 = p2.term_months.getD 0 ∧
         normalize_fee p1.early_termination_fee = normalize_fee p2.early_termination_fee ∧
         normalize_fee p1.base_charge_monthly = normalize_fee p2.base_charge_monthly ∧
         p1.renewable_pct.getD 0 = p2.renewable_pct.getD 0 ∧
         p1.is_prepaid = p2.is_prepaid ∧ p1.is_tou = p2.is_tou))
    ∧ (∀ (p : Plan) (pid pname eflu enru tosu st pd fc mu lang : String),
        create_plan_fingerprint
          { p with plan_id := pid, plan_name := pname, efl_url := eflu,
                   enrollment_url := enru, terms_url := tosu, special_terms := st,
                   promotion_details := pd, fees_credits := fc, min_usage_fees := mu,
                   language := lang } = create_plan_fingerprint p) := by
  constructor
  · intro p1 p2
    simp only [create_plan_fingerprint, FingerprintData.mk.injEq]
  · intro p pid pname eflu enru tosu st pd fc mu lang
    rfl

theorem spanishCharPenalty_nonneg (text : List Char) : 0 ≤ spanishCharPenalty text := by
  unfold spanishCharPenalty
  split_ifs <;> norm_num

theorem spanishCharPenalty_le (text : List Char) : spanishCharPenalty text ≤ 85 := by
  unfold spanishCharPenalty
  split_ifs <;> norm_num

/-- C6: the preference score of any plan marked `English` with a
10-character name strictly exceeds that of any plan marked `Spanish` with a
60-character name, whatever the other fields (the scorer itself is the total
function `calculate_plan_preference`). -/
theorem preference_english_beats_spanish (p1 p2 : Plan)
    (h1 : p1.language = "English") (h2 : p1.plan_name.data.length = 10)
    (h3 : p2.language = "Spanish") (h4 : p2.plan_name.data.length = 60) :
    calculate_plan_preference p2 < calculate_plan_preference p1 := by
  unfold calculate_plan_preference
  dsimp only
  rw [h1, h3, h2, h4]
  rw [show languageAdj (pyLower "English") = 50 from by decide,
     show languageAdj (pyLower "Spanish") = -50 from by decide,
     show nameLengthPenalty 10 = 0 from by decide,
     show nameLengthPenalty 60 = 15 from by decide]
  have c1 : specialCharCount p1.plan_name.data ≤ 10 := by
    unfold specialCharCount
    calc List.countP _ p1.plan_name.data ≤ p1.plan_name.data.length := List.countP_le_length _
    _ = 10 := h2
  have s1 := spanishCharPenalty_le ((pyLower (p1.plan_name ++ " " ++ p1.special_terms)).data)
  have s2 := spanishCharPenalty_nonneg ((pyLower (p2.plan_name ++ " " ++ p2.special_terms)).data)
  omega

/-- C6 witness: concrete English and Spanish plans compared through the
theorem. -/
theorem preference_english_beats_spanish_witness :
    planEnglish.language = "English" ∧ planEnglish.plan_name.data.length = 10 ∧
    planSpanish.language = "Spanish" ∧ planSpanish.plan_name.data.length = 60 ∧
    calculate_plan_preference planSpanish < calculate_plan_preference planEnglish :=
  ⟨rfl, by decide, rfl, by decide,
    preference_english_beats_spanish planEnglish planSpanish rfl (by decide) rfl (by decide)⟩
